import Mathlib

/-!
Shallow embedding of the ai-pin-generator-server (src/app.js): the content
moderation function, the two generate-image handlers (OpenAI and Stability
variants), the save-image handler, and the three-window rate limiting
configuration, together with theorems settling the specification claims.
-/

set_option maxRecDepth 4000

/-- Embedding of the JavaScript `String.prototype.includes`: substring
containment on the character sequence. -/
def strIncludes (s sub : String) : Bool :=
  (List.range (s.data.length + 1)).any (fun i => sub.data.isPrefixOf (s.data.drop i))

/-- Embedding of `String.prototype.toLowerCase`: character-wise lowering
(the ASCII range, which covers the blacklist and the reason strings). -/
def lowerStr (s : String) : String :=
  String.mk (s.data.map Char.toLower)

/-- The result object of `moderateContent`: `{ allowed, reason }`; the
`reason` property is absent (`none`) in the allowed case. -/
structure ModerationDecision where
  allowed : Bool
  reason : Option String
deriving DecidableEq

/-- The fixed blacklist from `moderateContent` (src/app.js lines 27-32 and
207-212, identical in both variants). -/
def blacklist : List String :=
  ["celebrity", "celebrities", "famous", "star",
   "trademark", "logo", "brand",
   "disney", "marvel", "pokemon",
   "political", "politician", "president"]

/-- `moderateContent` (src/app.js lines 26-45 / 206-225) on an actual string
argument: lower-case the prompt, keep every blacklist word the lowered prompt
contains, reject with the comma-joined match list when nonempty. -/
def moderateContent (prompt : String) : ModerationDecision :=
  let promptLower := lowerStr prompt
  let matched := blacklist.filter (fun word => strIncludes promptLower word)
  if matched.length > 0 then
    { allowed := false,
      reason := some ("Prompt contains restricted words: " ++ String.intercalate ", " matched) }
  else
    { allowed := true, reason := none }

/-- Message of the TypeError raised by the lower-casing call when `prompt`
is `undefined` (the destructuring `const { prompt } = req.body` yields
`undefined` for a missing field). -/
def typeErrorToLowerCase : String :=
  "Cannot read properties of undefined (reading toLowerCase)"

/-- `moderateContent` as called by the route handlers, where the argument may
be `undefined`/`null` (modelled as `none`): calling `.toLowerCase()` on a
non-string throws a TypeError, modelled as `Except.error`. -/
def moderateContentJS : Option String → Except String ModerationDecision
  | none => Except.error typeErrorToLowerCase
  | some p => Except.ok (moderateContent p)

/-- Embedding of the JavaScript `a || b` for an optional string `a`
(`undefined` and the empty string are falsy). -/
def jsOr (a : Option String) (b : String) : String :=
  match a with
  | none => b
  | some s => if s = "" then b else s

/-- Possible behaviours of the Stability upstream call in the `/generate`
handler (src/app.js lines 288-313): the `fetch` itself may reject (network
failure), a `.json()` call may throw (malformed body), or a response arrives
with an `ok` flag, an optional `message` field of the error body, and an
optional `artifacts` array (each artifact contributing its base64 payload). -/
inductive Upstream where
  | fetchThrow (msg : String)
  | jsonThrow (msg : String)
  | response (ok : Bool) (errMsg : Option String) (artifacts : Option (List String))
deriving DecidableEq

/-- Possible behaviours of the OpenAI upstream call in the first variant's
`/generate` handler (src/app.js lines 62-69): the call may reject, or return
a `data` array of image URLs. -/
inductive OpenaiUpstream where
  | callThrow (msg : String)
  | success (urls : List String)
deriving DecidableEq

/-- Observable side effects of handling one request: whether the upstream
provider was invoked, and which file (name and decoded bytes) was written. -/
structure Effects where
  upstreamCalled : Bool
  written : Option (String × List Nat)
deriving DecidableEq

def noEffects : Effects := { upstreamCalled := false, written := none }

/-- The JSON responses the server produces, tagged by route and outcome. -/
inductive Response where
  | rateLimited (error message : String)
  | generateOk (images : List String)
  | generateOkUrl (imageUrl : String)
  | generateBadRequest (error message : String)
  | generateServerError (error message : String)
  | saveOk (imageUrl : String)
  | saveBadRequest (error : String)
  | healthOk
  | statusOk (dailyMax hourlyMax burstMax : Nat)
  | testOk (imageGenerated : Bool)
  | testError (error message : String)
deriving DecidableEq

/-- The HTTP status code attached to each response by the handlers
(`res.status(400)`, `res.status(500)`, default 200; 429 is the rate
limiter's rejection status). -/
def Response.status : Response → Nat
  | .rateLimited _ _ => 429
  | .generateOk _ => 200
  | .generateOkUrl _ => 200
  | .generateBadRequest _ _ => 400
  | .generateServerError _ _ => 500
  | .saveOk _ => 200
  | .saveBadRequest _ => 400
  | .healthOk => 200
  | .statusOk _ _ _ => 200
  | .testOk _ => 200
  | .testError _ _ => 500

/-- The Stability-variant `POST /generate` handler (src/app.js lines
274-331): moderation gate, then the upstream call; every exception is caught
and reported as a 500 with `error.message`; a non-ok response throws
`error.message || "Failed to generate image"`; missing or empty `artifacts`
throws `"No image generated"`; otherwise each artifact is wrapped as a PNG
data URI. -/
def handleGenerate (prompt : Option String) (u : Upstream) : Response × Effects :=
  match moderateContentJS prompt with
  | .error msg => (.generateServerError "Failed to generate image" msg, noEffects)
  | .ok m =>
    if m.allowed then
      match u with
      | .fetchThrow msg =>
          (.generateServerError "Failed to generate image" msg,
           { upstreamCalled := true, written := none })
      | .jsonThrow msg =>
          (.generateServerError "Failed to generate image" msg,
           { upstreamCalled := true, written := none })
      | .response ok errMsg artifacts =>
          if ok = false then
            (.generateServerError "Failed to generate image"
               (jsOr errMsg "Failed to generate image"),
             { upstreamCalled := true, written := none })
          else
            match artifacts with
            | none =>
                (.generateServerError "Failed to generate image" "No image generated",
                 { upstreamCalled := true, written := none })
            | some arts =>
                if arts.length = 0 then
                  (.generateServerError "Failed to generate image" "No image generated",
                   { upstreamCalled := true, written := none })
                else
                  (.generateOk (arts.map (fun a => "data:image/png;base64," ++ a)),
                   { upstreamCalled := true, written := none })
    else
      (.generateBadRequest "Content not allowed" (m.reason.getD ""), noEffects)

/-- Message of the TypeError raised by `response.data[0].url` when the
`data` array is empty. -/
def typeErrorUrl : String := "Cannot read properties of undefined (reading url)"

/-- The OpenAI-variant `POST /generate` handler (src/app.js lines 48-82):
moderation gate, then the DALL-E call; on success the first returned URL is
sent back as `imageUrl`; every exception is caught and reported as a 500. -/
def handleGenerateOpenai (prompt : Option String) (u : OpenaiUpstream) : Response × Effects :=
  match moderateContentJS prompt with
  | .error msg => (.generateServerError "Failed to generate image" msg, noEffects)
  | .ok m =>
    if m.allowed then
      match u with
      | .callThrow msg =>
          (.generateServerError "Failed to generate image" msg,
           { upstreamCalled := true, written := none })
      | .success urls =>
          match urls with
          | [] =>
              (.generateServerError "Failed to generate image" typeErrorUrl,
               { upstreamCalled := true, written := none })
          | url :: _ =>
              (.generateOkUrl url, { upstreamCalled := true, written := none })
    else
      (.generateBadRequest "Content not allowed" (m.reason.getD ""), noEffects)

/-- Base64 value of one character of the standard alphabet; `none` for a
character the decoder skips. -/
def base64CharVal (c : Char) : Option Nat :=
  if 'A' ≤ c ∧ c ≤ 'Z' then some (c.toNat - 65)
  else if 'a' ≤ c ∧ c ≤ 'z' then some (c.toNat - 97 + 26)
  else if '0' ≤ c ∧ c ≤ '9' then some (c.toNat - 48 + 52)
  else if c = '+' then some 62
  else if c = '/' then some 63
  else none

/-- Reassemble 6-bit groups into bytes; a trailing group of fewer than four
sextets yields the correspondingly fewer bytes, as Node's forgiving base64
decoding does. -/
def sextetsToBytes : List Nat → List Nat
  | a :: b :: c :: d :: rest =>
      (a * 4 + b / 16) :: ((b % 16) * 16 + c / 4) :: ((c % 4) * 64 + d) :: sextetsToBytes rest
  | [a, b, c] => [a * 4 + b / 16, (b % 16) * 16 + c / 4]
  | [a, b] => [a * 4 + b / 16]
  | _ => []

/-- Embedding of `Buffer.from(s, "base64")`: skip characters outside the
base64 alphabet, then reassemble the sextets into bytes. -/
def decodeBase64 (s : String) : List Nat :=
  sextetsToBytes (s.data.filterMap base64CharVal)

/-- Characters following the first occurrence of `sep`. -/
def afterFirstSep (sep : List Char) : List Char → List Char
  | [] => []
  | c :: rest =>
    if sep.isPrefixOf (c :: rest) then (c :: rest).drop sep.length
    else afterFirstSep sep rest

/-- Characters up to (excluding) the next occurrence of `sep`. -/
def takeUntilSep (sep : List Char) : List Char → List Char
  | [] => []
  | c :: rest =>
    if sep.isPrefixOf (c :: rest) then []
    else c :: takeUntilSep sep rest

/-- The prefix stripping of `/save-image` (src/app.js lines 343-346): when
the payload contains `"base64,"`, take `imageData.split("base64,")[1]` — the
segment after the first occurrence of the separator and before the next one —
otherwise use the payload as is. -/
def stripBase64Prefix (s : String) : String :=
  if strIncludes s "base64," then
    String.mk (takeUntilSep "base64,".data (afterFirstSep "base64,".data s.data))
  else s

/-- Startup configuration read from the environment: the
`DISABLE_RATE_LIMIT === "true"` toggle, `APP_URL`, and the port. -/
structure Config where
  disableRateLimit : Bool
  appUrl : Option String
  port : String
deriving DecidableEq

/-- The `POST /save-image` handler (src/app.js lines 334-370): a falsy
`imageData` (missing or empty) is answered with a 400; otherwise any
`"...base64,"` prefix is stripped, the decoded bytes are written under a
fresh `<uuid>.png` name, and the URL `(APP_URL || localhost)/uploads/<file>`
is returned. -/
def handleSaveImage (cfg : Config) (imageData : Option String) (uuid : String) :
    Response × Effects :=
  match imageData with
  | none => (.saveBadRequest "No image data provided", noEffects)
  | some s =>
    if s = "" then (.saveBadRequest "No image data provided", noEffects)
    else
      let base64Data := stripBase64Prefix s
      let filename := uuid ++ ".png"
      let host := jsOr cfg.appUrl ("http://localhost:" ++ cfg.port)
      (.saveOk (host ++ "/uploads/" ++ filename),
       { upstreamCalled := false, written := some (filename, decodeBase64 base64Data) })

/-- One rate window as configured for `express-rate-limit`: its span in
milliseconds and its ceiling. -/
structure RateWindow where
  windowMs : Nat
  max : Nat
deriving DecidableEq

/-- The `RATE_LIMITS` configuration object (src/app.js lines 133-137). -/
structure RateLimitsCfg where
  daily : Nat
  hourly : Nat
  burst : Nat
deriving DecidableEq

def RATE_LIMITS : RateLimitsCfg := { daily := 500, hourly := 50, burst := 20 }

/-- The daily limiter's window: 24 hours, `RATE_LIMITS.daily` requests. -/
def dailyWindow : RateWindow := { windowMs := 24 * 60 * 60 * 1000, max := RATE_LIMITS.daily }

/-- The hourly limiter's window: 1 hour, `RATE_LIMITS.hourly` requests. -/
def hourlyWindow : RateWindow := { windowMs := 60 * 60 * 1000, max := RATE_LIMITS.hourly }

/-- The burst limiter's window: 1 minute, `RATE_LIMITS.burst` requests. -/
def burstWindow : RateWindow := { windowMs := 60 * 1000, max := RATE_LIMITS.burst }

/-- Per-identity counter of one window: current count and the instant the
window expires. The initial `resetTime := 0` makes the first request open a
fresh window anchored at its own timestamp. -/
structure RateCounterState where
  count : Nat
  resetTime : Nat
deriving DecidableEq

/-- Modelled from the spec: the `express-rate-limit` middleware internals are
a third-party dependency, not part of this repository; following the spec's
window semantics, a window whose span has elapsed resets to zero and a new
period begins anchored at the triggering request's timestamp. -/
def resetIfElapsed (w : RateWindow) (s : RateCounterState) (now : Nat) : RateCounterState :=
  if s.resetTime ≤ now then { count := 0, resetTime := now + w.windowMs } else s

/-- Modelled from the spec: one limiter middleware's admission step (the
`express-rate-limit` internals are not in this repository). After any due
reset, a request is admitted and counted while the count is below the
ceiling, and rejected without counting past the ceiling otherwise. -/
def admitWindow (w : RateWindow) (s : RateCounterState) (now : Nat) :
    Bool × RateCounterState :=
  if (resetIfElapsed w s now).count < w.max then
    (true, { count := (resetIfElapsed w s now).count + 1,
             resetTime := (resetIfElapsed w s now).resetTime })
  else
    (false, resetIfElapsed w s now)

/-- The outcome of the rate-limiting middleware chain: admitted, or rejected
with the rejecting limiter's configured `error` and `message` strings. -/
inductive AdmitResult where
  | admitted
  | rejected (error message : String)
deriving DecidableEq

/-- The three per-identity counters, one per limiter middleware. -/
structure GovState where
  daily : RateCounterState
  hourly : RateCounterState
  burst : RateCounterState
deriving DecidableEq

/-- State of an identity that has never made a request. -/
def freshGov : GovState :=
  { daily := { count := 0, resetTime := 0 },
    hourly := { count := 0, resetTime := 0 },
    burst := { count := 0, resetTime := 0 } }

/-- The rate-limiting middleware chain as applied in src/app.js lines
182-189: unless disabled, the daily, hourly and burst limiters run in that
order; the first limiter at its ceiling rejects with its configured message
and the later limiters are not consulted. -/
def governorStep (disable : Bool) (st : GovState) (now : Nat) : AdmitResult × GovState :=
  if disable then (.admitted, st)
  else
    let d := admitWindow dailyWindow st.daily now
    if d.1 = false then
      (.rejected "Daily limit exceeded"
         "You have reached your daily generation limit. Please try again tomorrow.",
       { st with daily := d.2 })
    else
      let h := admitWindow hourlyWindow st.hourly now
      if h.1 = false then
        (.rejected "Hourly limit exceeded"
           "You have reached your hourly generation limit. Please wait a bit.",
         { st with daily := d.2, hourly := h.2 })
      else
        let b := admitWindow burstWindow st.burst now
        if b.1 = false then
          (.rejected "Too many requests"
             "You are generating too quickly. Please wait a moment and try again.",
           { daily := d.2, hourly := h.2, burst := b.2 })
        else
          (.admitted, { daily := d.2, hourly := h.2, burst := b.2 })

/-- Run the governor over a list of request timestamps, returning the
admission results and the final state. -/
def runGov (st : GovState) : List Nat → List AdmitResult × GovState
  | [] => ([], st)
  | t :: ts =>
    let r := governorStep false st t
    let rest := runGov r.2 ts
    (r.1 :: rest.1, rest.2)

/-- All states an identity's counters pass through on a request sequence. -/
def govStates (st : GovState) : List Nat → List GovState
  | [] => [st]
  | t :: ts => st :: govStates (governorStep false st t).2 ts

/-- Every counter is at or below its window's ceiling. -/
def countsOk (st : GovState) : Bool :=
  st.daily.count ≤ dailyWindow.max &&
  st.hourly.count ≤ hourlyWindow.max &&
  st.burst.count ≤ burstWindow.max

/-- The toggle `process.env.DISABLE_RATE_LIMIT !== "true"` guarding the
middleware chain (src/app.js line 182): limiting is disabled exactly when
the variable is set to the string `"true"`. -/
def rateLimitDisabled (env : Option String) : Bool :=
  env == some "true"

/-- The routes of the HTTP surface, each with the inputs its handler uses. -/
inductive Route where
  | generate (prompt : Option String) (u : Upstream)
  | saveImage (imageData : Option String) (uuid : String)
  | testStability (u : Upstream)
  | health
  | rateLimitStatus
deriving DecidableEq

/-- The `GET /test-stability` handler (src/app.js lines 228-271): calls the
upstream with a fixed prompt and reports whether artifacts came back; any
exception is reported as a 500. -/
def handleTestStability (u : Upstream) : Response × Effects :=
  match u with
  | .fetchThrow msg =>
      (.testError "API test failed" msg, { upstreamCalled := true, written := none })
  | .jsonThrow msg =>
      (.testError "API test failed" msg, { upstreamCalled := true, written := none })
  | .response ok errMsg artifacts =>
      if ok = false then
        (.testError "API test failed" (jsOr errMsg "API request failed"),
         { upstreamCalled := true, written := none })
      else
        (.testOk (artifacts != none), { upstreamCalled := true, written := none })

/-- Dispatch to the route handlers, after the middleware chain admitted the
request. -/
def routeHandler (cfg : Config) : Route → Response × Effects
  | .generate prompt u => handleGenerate prompt u
  | .saveImage imageData uuid => handleSaveImage cfg imageData uuid
  | .testStability u => handleTestStability u
  | .health => (.healthOk, noEffects)
  | .rateLimitStatus => (.statusOk RATE_LIMITS.daily RATE_LIMITS.hourly RATE_LIMITS.burst, noEffects)

/-- Everything observable about one handled request. -/
structure RequestOutcome where
  response : Response
  effects : Effects
  state : GovState
deriving DecidableEq

/-- One request through the whole server: the rate-limiting chain runs first
on every route; only an admitted request reaches its route handler. -/
def handleRequest (cfg : Config) (st : GovState) (now : Nat) (r : Route) : RequestOutcome :=
  match governorStep cfg.disableRateLimit st now with
  | (.rejected e m, st2) => { response := .rateLimited e m, effects := noEffects, state := st2 }
  | (.admitted, st2) =>
      { response := (routeHandler cfg r).1, effects := (routeHandler cfg r).2, state := st2 }

/-- C2: for every prompt containing at least one blacklisted term as a
case-insensitive substring, `moderateContent` returns `allowed = false` with
a reason listing exactly the matched terms, comma-joined, in blacklist
order; for every prompt containing none of them it returns
`allowed = true`. -/
theorem moderateContent_blacklist (prompt : String) :
    ((∃ w ∈ blacklist, strIncludes (lowerStr prompt) w = true) →
      moderateContent prompt =
        { allowed := false,
          reason := some ("Prompt contains restricted words: " ++
            String.intercalate ", "
              (blacklist.filter (fun w => strIncludes (lowerStr prompt) w))) }) ∧
    ((∀ w ∈ blacklist, strIncludes (lowerStr prompt) w = false) →
      moderateContent prompt = { allowed := true, reason := none }) := by
  constructor
  · rintro ⟨w, hw, hinc⟩
    have hmem : w ∈ blacklist.filter (fun w => strIncludes (lowerStr prompt) w) :=
      List.mem_filter.mpr ⟨hw, hinc⟩
    have hlen : 0 < (blacklist.filter (fun w => strIncludes (lowerStr prompt) w)).length :=
      List.length_pos.mpr (List.ne_nil_of_mem hmem)
    simp only [moderateContent]
    rw [if_pos hlen]
  · intro hall
    have hnil : blacklist.filter (fun w => strIncludes (lowerStr prompt) w) = [] :=
      List.filter_eq_nil_iff.mpr (fun a ha => by simp [hall a ha])
    simp only [moderateContent]
    rw [hnil]
    simp

theorem moderateContent_blacklist_witness :
    moderateContent "A Disney Star" =
      { allowed := false,
        reason := some "Prompt contains restricted words: star, disney" } ∧
    moderateContent "a blue cat" = { allowed := true, reason := none } :=
  ⟨((moderateContent_blacklist "A Disney Star").1
      ⟨"star", by decide, by decide⟩).trans (by decide),
   (moderateContent_blacklist "a blue cat").2 (by decide)⟩

/-- C4 counterexample: the handlers perform no prompt validation. A missing
prompt is answered with a 500 server error coming from the TypeError inside
the moderation step (not a 400 validation error issued before moderation),
and an empty prompt is not rejected at all: it passes moderation and the
upstream call proceeds. -/
theorem generate_prompt_validation_cex :
    (handleGenerate none (Upstream.response true none (some ["QUJD"]))).1 =
      Response.generateServerError "Failed to generate image" typeErrorToLowerCase ∧
    ((handleGenerate none (Upstream.response true none (some ["QUJD"]))).1).status = 500 ∧
    (handleGenerateOpenai none (OpenaiUpstream.success ["u1"])).1 =
      Response.generateServerError "Failed to generate image" typeErrorToLowerCase ∧
    (handleGenerate (some "") (Upstream.response true none (some ["QUJD"]))).1 =
      Response.generateOk ["data:image/png;base64,QUJD"] := by
  decide

/-- C4 amended: `generate` performs no prompt-presence or emptiness
validation. A missing prompt reaches the Moderation Filter, whose TypeError
is caught and reported as a 500 server error; an empty prompt passes
moderation (`allowed = true`) and proceeds to the upstream call. -/
theorem generate_prompt_validation_amended :
    (∀ u : Upstream, handleGenerate none u =
      (Response.generateServerError "Failed to generate image" typeErrorToLowerCase,
       noEffects)) ∧
    (∀ u : OpenaiUpstream, handleGenerateOpenai none u =
      (Response.generateServerError "Failed to generate image" typeErrorToLowerCase,
       noEffects)) ∧
    moderateContent "" = { allowed := true, reason := none } ∧
    (∀ u : Upstream, (handleGenerate (some "") u).2.upstreamCalled = true) := by
  refine ⟨fun u => rfl, fun u => rfl, by decide, fun u => ?_⟩
  have h : moderateContentJS (some "") = Except.ok { allowed := true, reason := none } := by
    have : moderateContent "" = { allowed := true, reason := none } := by decide
    simp [moderateContentJS, this]
  cases u with
  | fetchThrow msg => simp [handleGenerate, h]
  | jsonThrow msg => simp [handleGenerate, h]
  | response ok errMsg artifacts =>
    by_cases hok : ok = false
    · simp [handleGenerate, h, hok]
    · cases artifacts with
      | none => simp [handleGenerate, h, hok]
      | some arts =>
        by_cases hl : arts.length = 0
        · simp [handleGenerate, h, hok, hl]
        · simp [handleGenerate, h, hok, hl]

/-- C5: every prompt rejected by the Moderation Filter makes `generate`
answer 400 with the moderation reason, in both variants, without any
upstream call, and that response is distinct from a rate-limit rejection and
from a server error. -/
theorem generate_moderation_rejected (p : String)
    (h : (moderateContent p).allowed = false) :
    ∀ (u : Upstream) (uo : OpenaiUpstream),
      (handleGenerate (some p) u).1 =
        Response.generateBadRequest "Content not allowed"
          ((moderateContent p).reason.getD "") ∧
      ((handleGenerate (some p) u).1).status = 400 ∧
      (handleGenerate (some p) u).2.upstreamCalled = false ∧
      (handleGenerateOpenai (some p) uo).1 =
        Response.generateBadRequest "Content not allowed"
          ((moderateContent p).reason.getD "") ∧
      (handleGenerateOpenai (some p) uo).2.upstreamCalled = false ∧
      (∀ e m, (handleGenerate (some p) u).1 ≠ Response.rateLimited e m) ∧
      (∀ e m, (handleGenerate (some p) u).1 ≠ Response.generateServerError e m) := by
  intro u uo
  simp only [handleGenerate, handleGenerateOpenai, moderateContentJS, h]
  simp [noEffects, Response.status]

theorem generate_moderation_rejected_witness :
    (handleGenerate (some "disney") (Upstream.fetchThrow "net")).1 =
      Response.generateBadRequest "Content not allowed"
        "Prompt contains restricted words: disney" ∧
    (handleGenerate (some "disney") (Upstream.fetchThrow "net")).2.upstreamCalled = false :=
  have h := generate_moderation_rejected "disney" (by decide)
    (Upstream.fetchThrow "net") (OpenaiUpstream.callThrow "net")
  ⟨h.1.trans (by decide), h.2.2.1⟩

/-- C6 counterexample: called on a null/missing prompt, `moderateContent`
throws a TypeError instead of returning a decision with `allowed = true`. -/
theorem moderate_never_throws_cex :
    moderateContentJS none = Except.error typeErrorToLowerCase ∧
    moderateContentJS none ≠ Except.ok { allowed := true, reason := none } :=
  ⟨rfl, fun h => Except.noConfusion h⟩

/-- C6 amended: `moderateContent` never throws on an actual string argument
and returns `allowed = true` for the empty string, but a null/missing prompt
makes it throw a TypeError rather than return a decision. -/
theorem moderate_throw_behavior :
    (∀ p : String, moderateContentJS (some p) = Except.ok (moderateContent p)) ∧
    moderateContentJS (some "") = Except.ok { allowed := true, reason := none } ∧
    moderateContentJS none = Except.error typeErrorToLowerCase := by
  refine ⟨fun p => rfl, ?_, rfl⟩
  have : moderateContent "" = { allowed := true, reason := none } := by decide
  simp [moderateContentJS, this]

/-- C7: every upstream failure of the Stability `generate` handler — network
failure, malformed body, non-success status, missing or empty artifact list —
is answered with a 500 carrying the underlying message, and that response is
distinct from the 400 validation/moderation responses and from a rate-limit
rejection. -/
theorem generate_upstream_failure (p : String)
    (h : (moderateContent p).allowed = true) :
    (∀ msg, handleGenerate (some p) (Upstream.fetchThrow msg) =
      (Response.generateServerError "Failed to generate image" msg,
       { upstreamCalled := true, written := none })) ∧
    (∀ msg, handleGenerate (some p) (Upstream.jsonThrow msg) =
      (Response.generateServerError "Failed to generate image" msg,
       { upstreamCalled := true, written := none })) ∧
    (∀ errMsg arts, handleGenerate (some p) (Upstream.response false errMsg arts) =
      (Response.generateServerError "Failed to generate image"
         (jsOr errMsg "Failed to generate image"),
       { upstreamCalled := true, written := none })) ∧
    (∀ errMsg, handleGenerate (some p) (Upstream.response true errMsg none) =
      (Response.generateServerError "Failed to generate image" "No image generated",
       { upstreamCalled := true, written := none })) ∧
    (∀ errMsg, handleGenerate (some p) (Upstream.response true errMsg (some [])) =
      (Response.generateServerError "Failed to generate image" "No image generated",
       { upstreamCalled := true, written := none })) ∧
    (∀ e m, (Response.generateServerError e m).status = 500 ∧
      (∀ e2 m2, Response.generateServerError e m ≠ Response.generateBadRequest e2 m2) ∧
      (∀ e2 m2, Response.generateServerError e m ≠ Response.rateLimited e2 m2)) := by
  refine ⟨fun msg => ?_, fun msg => ?_, fun errMsg arts => ?_, fun errMsg => ?_,
    fun errMsg => ?_, fun e m => ⟨rfl, fun e2 m2 => by simp, fun e2 m2 => by simp⟩⟩ <;>
    simp [handleGenerate, moderateContentJS, h]

theorem generate_upstream_failure_witness :
    handleGenerate (some "a blue cat") (Upstream.fetchThrow "network down") =
      (Response.generateServerError "Failed to generate image" "network down",
       { upstreamCalled := true, written := none }) :=
  (generate_upstream_failure "a blue cat" (by decide)).1 "network down"

/-- C10: whenever the Stability `generate` handler succeeds, the response is
the nonempty image list with exactly one entry per upstream artifact, each
entry being the string `data:image/png;base64,` followed by that artifact's
base64 payload. -/
theorem generate_success_shape (p : String) (errMsg : Option String)
    (arts : List String) (h : (moderateContent p).allowed = true)
    (hne : arts ≠ []) :
    handleGenerate (some p) (Upstream.response true errMsg (some arts)) =
      (Response.generateOk (arts.map (fun a => "data:image/png;base64," ++ a)),
       { upstreamCalled := true, written := none }) ∧
    (arts.map (fun a => "data:image/png;base64," ++ a)).length = arts.length ∧
    arts.map (fun a => "data:image/png;base64," ++ a) ≠ [] := by
  have hl : ¬ arts.length = 0 := by
    simpa [List.length_eq_zero] using hne
  refine ⟨?_, by simp, by simp [hne]⟩
  simp [handleGenerate, moderateContentJS, h, hl]

theorem generate_success_shape_witness :
    handleGenerate (some "a blue cat") (Upstream.response true none (some ["QUJD", "RUZH"])) =
      (Response.generateOk
        ["data:image/png;base64,QUJD", "data:image/png;base64,RUZH"],
       { upstreamCalled := true, written := none }) :=
  ((generate_success_shape "a blue cat" none ["QUJD", "RUZH"]
    (by decide) (by decide)).1).trans (by decide)

/-- C8: `save-image` answers 400 exactly when no image data is supplied
(missing or empty payload, both falsy in the source's check); for every
supplied payload the `"...base64,"` prefix is stripped before decoding, the
decoded bytes are written under the generated filename, and the returned URL
combines the configured public base address with the stored file's relative
path. -/
theorem saveImage_correct (cfg : Config) (uuid s : String) (h : s ≠ "") :
    handleSaveImage cfg none uuid =
      (Response.saveBadRequest "No image data provided", noEffects) ∧
    handleSaveImage cfg (some "") uuid =
      (Response.saveBadRequest "No image data provided", noEffects) ∧
    (Response.saveBadRequest "No image data provided").status = 400 ∧
    handleSaveImage cfg (some s) uuid =
      (Response.saveOk (jsOr cfg.appUrl ("http://localhost:" ++ cfg.port) ++
         "/uploads/" ++ (uuid ++ ".png")),
       { upstreamCalled := false,
         written := some (uuid ++ ".png", decodeBase64 (stripBase64Prefix s)) }) := by
  refine ⟨rfl, by simp [handleSaveImage], rfl, ?_⟩
  simp [handleSaveImage, h]

theorem saveImage_correct_witness :
    handleSaveImage { disableRateLimit := false, appUrl := none, port := "3000" }
        (some "data:image/png;base64,AAAA") "id7" =
      (Response.saveOk "http://localhost:3000/uploads/id7.png",
       { upstreamCalled := false, written := some ("id7.png", [0, 0, 0]) }) :=
  ((saveImage_correct { disableRateLimit := false, appUrl := none, port := "3000" }
    "id7" "data:image/png;base64,AAAA" (by decide)).2.2.2).trans (by decide)

theorem resetIfElapsed_count_le (w : RateWindow) (s : RateCounterState) (now : Nat)
    (h : s.count ≤ w.max) : (resetIfElapsed w s now).count ≤ w.max := by
  unfold resetIfElapsed
  split
  · exact Nat.zero_le _
  · exact h

theorem admitWindow_count_le (w : RateWindow) (s : RateCounterState) (now : Nat)
    (h : s.count ≤ w.max) : ((admitWindow w s now).2).count ≤ w.max := by
  unfold admitWindow
  split
  · next hlt => exact hlt
  · exact resetIfElapsed_count_le w s now h

theorem governorStep_countsOk (st : GovState) (now : Nat) (h : countsOk st = true) :
    countsOk (governorStep false st now).2 = true := by
  obtain ⟨h1, h2, h3⟩ : st.daily.count ≤ dailyWindow.max ∧
      st.hourly.count ≤ hourlyWindow.max ∧ st.burst.count ≤ burstWindow.max := by
    simp only [countsOk, Bool.and_eq_true, decide_eq_true_eq] at h
    exact ⟨h.1.1, h.1.2, h.2⟩
  have hd := admitWindow_count_le dailyWindow st.daily now h1
  have hh := admitWindow_count_le hourlyWindow st.hourly now h2
  have hb := admitWindow_count_le burstWindow st.burst now h3
  by_cases cd : (admitWindow dailyWindow st.daily now).1 = false
  · simp [governorStep, cd, countsOk, hd, h2, h3]
  · by_cases ch : (admitWindow hourlyWindow st.hourly now).1 = false
    · simp [governorStep, cd, ch, countsOk, hd, hh, h3]
    · by_cases cb : (admitWindow burstWindow st.burst now).1 = false
      · simp [governorStep, cd, ch, cb, countsOk, hd, hh, hb]
      · simp [governorStep, cd, ch, cb, countsOk, hd, hh, hb]

theorem govStates_countsOk (ts : List Nat) (st : GovState) (h : countsOk st = true) :
    (govStates st ts).all countsOk = true := by
  induction ts generalizing st with
  | nil => simp [govStates, h]
  | cons t ts ih =>
    simp only [govStates, List.all_cons, h, Bool.true_and]
    exact ih (governorStep false st t).2 (governorStep_countsOk st t h)

/-- C1: no window's counter ever exceeds its ceiling along any request
sequence; a request the chain rejects causes no effects (no upstream work)
on any route; and for a fresh identity the first N requests within a window
are admitted while the (N+1)-th is rejected, exhibited for each of the three
windows (burst N = 20, hourly N = 50, daily N = 500) as the first to reach
its ceiling. -/
theorem rate_ceiling_invariant :
    (∀ ts : List Nat, (govStates freshGov ts).all countsOk = true) ∧
    (∀ (cfg : Config) (st : GovState) (now : Nat) (r : Route),
      cfg.disableRateLimit = false →
      (governorStep false st now).1 ≠ AdmitResult.admitted →
      (handleRequest cfg st now r).effects = noEffects ∧
      (handleRequest cfg st now r).response.status = 429) ∧
    ((runGov freshGov (List.replicate 21 0)).1 =
      List.replicate 20 AdmitResult.admitted ++
        [AdmitResult.rejected "Too many requests"
          "You are generating too quickly. Please wait a moment and try again."]) ∧
    ((runGov freshGov ((List.range 51).map (fun i => i * 61000))).1 =
      List.replicate 50 AdmitResult.admitted ++
        [AdmitResult.rejected "Hourly limit exceeded"
          "You have reached your hourly generation limit. Please wait a bit."]) ∧
    ((runGov freshGov ((List.range 501).map (fun i => i * 72000))).1 =
      List.replicate 500 AdmitResult.admitted ++
        [AdmitResult.rejected "Daily limit exceeded"
          "You have reached your daily generation limit. Please try again tomorrow."]) := by
  refine ⟨fun ts => govStates_countsOk ts freshGov (by decide), ?_, by decide, by decide,
    by decide⟩
  intro cfg st now r hdis hrej
  unfold handleRequest
  rw [hdis]
  rcases hgov : governorStep false st now with ⟨a, st2⟩
  rw [hgov] at hrej
  cases a with
  | admitted => exact absurd (rfl : (AdmitResult.admitted, st2).1 = AdmitResult.admitted) hrej
  | rejected e m => exact ⟨rfl, rfl⟩

theorem rate_ceiling_invariant_witness :
    (govStates freshGov [0, 0, 0]).all countsOk = true ∧
    (handleRequest { disableRateLimit := false, appUrl := none, port := "3000" }
        { daily := { count := 500, resetTime := 1000000000 },
          hourly := { count := 50, resetTime := 1000000000 },
          burst := { count := 20, resetTime := 1000000000 } } 0 Route.health).effects =
      noEffects :=
  ⟨rate_ceiling_invariant.1 [0, 0, 0],
   (rate_ceiling_invariant.2.1 { disableRateLimit := false, appUrl := none, port := "3000" }
      { daily := { count := 500, resetTime := 1000000000 },
        hourly := { count := 50, resetTime := 1000000000 },
        burst := { count := 20, resetTime := 1000000000 } } 0 Route.health
      (by decide) (by decide)).1⟩

/-- C3: the three windows are burst (1 minute, ceiling 20), hourly (1 hour,
ceiling 50) and daily (24 hours, ceiling 500); the chain gates every route
of the HTTP surface; and a rejection always reports the first window at its
ceiling in the fixed order daily, then hourly, then burst. -/
theorem three_windows_precedence :
    (dailyWindow = { windowMs := 24 * 60 * 60 * 1000, max := 500 } ∧
     hourlyWindow = { windowMs := 60 * 60 * 1000, max := 50 } ∧
     burstWindow = { windowMs := 60 * 1000, max := 20 } ∧
     RATE_LIMITS = { daily := 500, hourly := 50, burst := 20 }) ∧
    (∀ (cfg : Config) (st st2 : GovState) (now : Nat) (r : Route) (e m : String),
      cfg.disableRateLimit = false →
      governorStep false st now = (AdmitResult.rejected e m, st2) →
      handleRequest cfg st now r =
        { response := Response.rateLimited e m, effects := noEffects, state := st2 }) ∧
    (∀ (st : GovState) (now : Nat),
      (admitWindow dailyWindow st.daily now).1 = false →
      (governorStep false st now).1 =
        AdmitResult.rejected "Daily limit exceeded"
          "You have reached your daily generation limit. Please try again tomorrow.") ∧
    (∀ (st : GovState) (now : Nat),
      (admitWindow dailyWindow st.daily now).1 = true →
      (admitWindow hourlyWindow st.hourly now).1 = false →
      (governorStep false st now).1 =
        AdmitResult.rejected "Hourly limit exceeded"
          "You have reached your hourly generation limit. Please wait a bit.") ∧
    (∀ (st : GovState) (now : Nat),
      (admitWindow dailyWindow st.daily now).1 = true →
      (admitWindow hourlyWindow st.hourly now).1 = true →
      (admitWindow burstWindow st.burst now).1 = false →
      (governorStep false st now).1 =
        AdmitResult.rejected "Too many requests"
          "You are generating too quickly. Please wait a moment and try again.") := by
  refine ⟨⟨rfl, rfl, rfl, rfl⟩, ?_, ?_, ?_, ?_⟩
  · intro cfg st st2 now r e m hdis hgov
    unfold handleRequest
    rw [hdis, hgov]
  · intro st now hdf
    simp [governorStep, hdf]
  · intro st now hdt hhf
    simp [governorStep, hdt, hhf]
  · intro st now hdt hht hbf
    simp [governorStep, hdt, hht, hbf]

theorem three_windows_precedence_witness :
    (governorStep false
        { daily := { count := 500, resetTime := 1000000000 },
          hourly := { count := 50, resetTime := 1000000000 },
          burst := { count := 20, resetTime := 1000000000 } } 0).1 =
      AdmitResult.rejected "Daily limit exceeded"
        "You have reached your daily generation limit. Please try again tomorrow." ∧
    (governorStep false
        { daily := { count := 0, resetTime := 1000000000 },
          hourly := { count := 50, resetTime := 1000000000 },
          burst := { count := 20, resetTime := 1000000000 } } 0).1 =
      AdmitResult.rejected "Hourly limit exceeded"
        "You have reached your hourly generation limit. Please wait a bit." ∧
    (governorStep false
        { daily := { count := 0, resetTime := 1000000000 },
          hourly := { count := 0, resetTime := 1000000000 },
          burst := { count := 20, resetTime := 1000000000 } } 0).1 =
      AdmitResult.rejected "Too many requests"
        "You are generating too quickly. Please wait a moment and try again." ∧
    handleRequest { disableRateLimit := false, appUrl := none, port := "3000" }
        { daily := { count := 500, resetTime := 1000000000 },
          hourly := { count := 50, resetTime := 1000000000 },
          burst := { count := 20, resetTime := 1000000000 } } 0 Route.rateLimitStatus =
      { response := Response.rateLimited "Daily limit exceeded"
          "You have reached your daily generation limit. Please try again tomorrow.",
        effects := noEffects,
        state := { daily := { count := 500, resetTime := 1000000000 },
                   hourly := { count := 50, resetTime := 1000000000 },
                   burst := { count := 20, resetTime := 1000000000 } } } :=
  ⟨three_windows_precedence.2.2.1 _ 0 (by decide),
   three_windows_precedence.2.2.2.1 _ 0 (by decide) (by decide),
   three_windows_precedence.2.2.2.2 _ 0 (by decide) (by decide) (by decide),
   three_windows_precedence.2.1 _ _ _ 0 Route.rateLimitStatus _ _ (by decide) (by decide)⟩

/-- C9: rate limiting is disabled exactly when the single environment toggle
equals the string `true`; with it set, the chain admits every request and
leaves the counters untouched on every route, and the handler responses and
effects are exactly those produced when the chain is enabled and admits. -/
theorem disable_rate_limit_toggle :
    (∀ env : Option String, rateLimitDisabled env = true ↔ env = some "true") ∧
    (∀ (st : GovState) (now : Nat), governorStep true st now = (AdmitResult.admitted, st)) ∧
    (∀ (cfg : Config) (st : GovState) (now : Nat) (r : Route),
      cfg.disableRateLimit = true →
      handleRequest cfg st now r =
        { response := (routeHandler cfg r).1, effects := (routeHandler cfg r).2,
          state := st }) ∧
    (∀ (appUrl : Option String) (port : String) (st st2 : GovState) (now : Nat) (r : Route),
      governorStep false st now = (AdmitResult.admitted, st2) →
      (handleRequest { disableRateLimit := false, appUrl := appUrl, port := port }
          st now r).response =
        (handleRequest { disableRateLimit := true, appUrl := appUrl, port := port }
          st now r).response ∧
      (handleRequest { disableRateLimit := false, appUrl := appUrl, port := port }
          st now r).effects =
        (handleRequest { disableRateLimit := true, appUrl := appUrl, port := port }
          st now r).effects) := by
  refine ⟨?_, fun st now => rfl, ?_, ?_⟩
  · intro env
    cases env with
    | none => simp [rateLimitDisabled]
    | some s => simp [rateLimitDisabled]
  · intro cfg st now r hdis
    unfold handleRequest
    rw [hdis]
    rfl
  · intro appUrl port st st2 now r hadm
    have hr : routeHandler { disableRateLimit := false, appUrl := appUrl, port := port } r =
        routeHandler { disableRateLimit := true, appUrl := appUrl, port := port } r := by
      cases r <;> rfl
    unfold handleRequest
    rw [hadm]
    exact ⟨congrArg Prod.fst hr, congrArg Prod.snd hr⟩

theorem disable_rate_limit_toggle_witness :
    handleRequest { disableRateLimit := true, appUrl := none, port := "3000" }
        freshGov 0 Route.health =
      { response := Response.healthOk, effects := noEffects, state := freshGov } ∧
    (handleRequest { disableRateLimit := false, appUrl := none, port := "3000" }
        freshGov 0 Route.health).response =
      (handleRequest { disableRateLimit := true, appUrl := none, port := "3000" }
        freshGov 0 Route.health).response :=
  ⟨(disable_rate_limit_toggle.2.2.1 _ freshGov 0 Route.health rfl).trans (by decide),
   (disable_rate_limit_toggle.2.2.2 none "3000" freshGov
      { daily := { count := 1, resetTime := 86400000 },
        hourly := { count := 1, resetTime := 3600000 },
        burst := { count := 1, resetTime := 60000 } } 0 Route.health (by decide)).1⟩
